import Mathlib

/-!
Shallow embedding of the Discord ticket bot in `src/index.js` (discord.js v14).

The bot's handlers are embedded as pure Lean functions over explicit state:
a guild's channel set is a list of channel names, an interaction's reply
state is a pair of booleans (`replied`, `deferred`, mirroring the discord.js
interaction flags), and every platform call a handler makes is recorded as an
element of an `Action` trace, in the order the handler issues the calls.
Platform calls that can fail are driven by explicit boolean failure oracles
(`FailureModel`, `CloseFailures`): a `true` flag means that call throws when
it is executed, mirroring a rejected platform request at that call site.

JavaScript string primitives used by the source are modelled over their
ASCII behaviour: `jsToLower` models `String.prototype.toLowerCase`
(usernames and channel names), and `parseIntJS` models `parseInt` with
base-10 semantics (leading spaces, optional sign, longest digit run,
`NaN` as `none`; the hexadecimal `0x` auto-detection is not modelled).
`Date.prototype.toISOString` is kept abstract, as a parameter
`iso : Nat → String` of the transcript builder, since its rendering is irrelevant to ordering.
-/

namespace TicketBot

/-- ASCII model of the per-character action of
`String.prototype.toLowerCase`: uppercase A–Z maps to a–z, everything
else is fixed. -/
def jsCharToLower (c : Char) : Char :=
  if 65 ≤ c.toNat ∧ c.toNat ≤ 90 then Char.ofNat (c.toNat + 32) else c

/-- Model of `s.toLowerCase()` in the source (used on usernames and on
channel names at `src/index.js:263` and `:271`). -/
def jsToLower (s : String) : String := ⟨s.data.map jsCharToLower⟩

theorem toNat_ofNat_valid (n : Nat) (h : n < 55296) : (Char.ofNat n).toNat = n := by
  have hv : n.isValidChar := Or.inl h
  unfold Char.ofNat
  rw [dif_pos hv]
  rfl

theorem jsCharToLower_idem (c : Char) : jsCharToLower (jsCharToLower c) = jsCharToLower c := by
  unfold jsCharToLower
  by_cases h : 65 ≤ c.toNat ∧ c.toNat ≤ 90
  · rw [if_pos h]
    have ht : (Char.ofNat (c.toNat + 32)).toNat = c.toNat + 32 :=
      toNat_ofNat_valid _ (by omega)
    rw [if_neg (by rw [ht]; omega)]
  · rw [if_neg h, if_neg h]

theorem data_jsToLower (s : String) : (jsToLower s).data = s.data.map jsCharToLower := rfl

theorem jsToLower_append (s t : String) : jsToLower (s ++ t) = jsToLower s ++ jsToLower t := by
  cases s with
  | mk a =>
    cases t with
    | mk b =>
      show String.mk ((a ++ b).map jsCharToLower) = _
      rw [List.map_append]
      rfl

theorem jsToLower_idem (s : String) : jsToLower (jsToLower s) = jsToLower s := by
  cases s with
  | mk a =>
    show String.mk _ = String.mk _
    rw [data_jsToLower]
    show String.mk ((a.map jsCharToLower).map jsCharToLower) = _
    rw [List.map_map]
    have hc : jsCharToLower ∘ jsCharToLower = jsCharToLower := funext jsCharToLower_idem
    rw [hc]

theorem jsToLower_ticket (s : String) :
    jsToLower ("ticket-" ++ s) = "ticket-" ++ jsToLower s := by
  rw [jsToLower_append]
  rfl

/-- The fields of `config.json` that the embedded handlers read
(`src/index.js:25-26` lists the expected shape).  JavaScript values that
may be absent, non-arrays, or falsy are modelled with `Option`:
`admins := none` models a missing / non-array `config.admins`,
`handlersRole := some (.inl r)` a single role-id string,
`handlersRole := some (.inr rs)` an array of role-id strings. -/
structure Config where
  admins : Option (List String)
  ticketCategory : Option String
  logChannel : Option String
  handlersRole : Option (String ⊕ List String)
  rolesToMention : List String
deriving DecidableEq

/-- Source function `isAdmin` (`src/index.js:75-78`): `false` when `config.admins` is not
an array, else `config.admins.includes(String(id))`. -/
def isAdmin (cfg : Config) (id : String) : Bool :=
  match cfg.admins with
  | none => false
  | some l => l.contains id

/-- The admin gate as combined at every privileged call site
(`src/index.js:143`, `:173`, `:338`): the caller is in the configured
admin list, or holds the ManageGuild permission. -/
def isPrivileged (cfg : Config) (callerId : String) (callerHasManage : Bool) : Bool :=
  isAdmin cfg callerId || callerHasManage

/-- A permission flag used by the ticket channel overwrites
(`PermissionFlagsBits.ViewChannel` / `SendMessages`). -/
inductive Perm where
  | viewChannel
  | sendMessages
deriving DecidableEq

/-- One entry of `permissionOverwrites` (`src/index.js:273-287`).  The
`id` is normally a snowflake string (`Sum.inl`); `Sum.inr` captures the
raw array value that the `else if (config.handlersRole)` branch pushes
when `handlersRole` is an empty array (empty arrays are truthy in JS). -/
structure Overwrite where
  id : String ⊕ List String
  allow : List Perm
  deny : List Perm
deriving DecidableEq

/-- The channel type requested for ticket channels (`ChannelType.GuildText`). -/
inductive JsChannelType where
  | guildText
deriving DecidableEq

/-- The options object passed to `guild.channels.create`
(`src/index.js:270-289`). -/
structure ChannelOpts where
  name : String
  type : JsChannelType
  parent : Option String
  permissionOverwrites : List Overwrite
deriving DecidableEq

/-- An allow-overwrite granting ViewChannel and SendMessages to `id`. -/
def allowViewSend (id : String ⊕ List String) : Overwrite :=
  { id := id, allow := [Perm.viewChannel, Perm.sendMessages], deny := [] }

/-- The handler-role overwrites pushed by `src/index.js:281-287`:
`if (Array.isArray(config.handlersRole) && config.handlersRole.length)`
pushes one overwrite per listed role id; `else if (config.handlersRole)`
pushes a single overwrite when the value is truthy (a non-empty string,
or an empty array — whose raw value then becomes the pushed `id`). -/
def handlersOverwrites (hr : Option (String ⊕ List String)) : List Overwrite :=
  match hr with
  | some (Sum.inr ids) =>
    if ids.length ≠ 0 then
      ids.map (fun rid => allowViewSend (Sum.inl rid))
    else
      [allowViewSend (Sum.inr ids)]
  | some (Sum.inl rid) =>
    if rid ≠ "" then [allowViewSend (Sum.inl rid)] else []
  | none => []

/-- The `opts` object built by `createTicket` (`src/index.js:270-287`):
lowercased derived name, text channel, parent category when configured,
deny ViewChannel to `guild.id` (the @everyone role), allow view+send to
the requesting user, then the handler-role overwrites. -/
def buildChannelOpts (cfg : Config) (guildId userId username : String) : ChannelOpts :=
  { name := jsToLower ("ticket-" ++ username),
    type := JsChannelType.guildText,
    parent := cfg.ticketCategory,
    permissionOverwrites :=
      [ { id := Sum.inl guildId, allow := [], deny := [Perm.viewChannel] },
        allowViewSend (Sum.inl userId) ]
      ++ handlersOverwrites cfg.handlersRole }

/-- The discord.js interaction reply flags consulted by `safeReply`
(`src/index.js:82`): `replied` is set by a successful `reply`, `deferred`
by a successful `deferReply`. -/
structure InteractionState where
  replied : Bool
  deferred : Bool
deriving DecidableEq

/-- One platform call issued by a handler, recorded in issue order.
A recorded call may still have failed at the platform; the trace records
invocations. -/
inductive Action where
  | deferReplyCall
  | replyCall (content : String)
  | editReplyCall (content : String)
  | createChannelCall (opts : ChannelOpts)
  | channelSendCall (channel : String) (content : String)
  | logSendCall (content : String)
  | logSendFileCall (note filename : String)
  | deleteChannelCall (channel : String)
  | fetchMessagesCall (channel : String) (limit : Nat)
  | writeFileCall (filename content : String)
  | unlinkFileCall (filename : String)
  | bulkDeleteCall (n : Int)
  | banCall (target : String)
  | kickCall (target : String)
  | messageReplyCall (content : String)
  | scheduledMessageDelete (delayMs : Nat)
  | postPanelCall (kind : String)
deriving DecidableEq

/-- Source function `safeReply` (`src/index.js:80-87`): edit when the interaction was
already replied-to or deferred, otherwise send the initial reply (which,
on success, sets the `replied` flag).  Returns the new interaction state
and the platform call issued. -/
def safeReply (st : InteractionState) (options : String) : InteractionState × Action :=
  if st.replied || st.deferred then
    (st, Action.editReplyCall options)
  else
    ({ st with replied := true }, Action.replyCall options)

/-- Iterated `safeReply`: the state threaded through a sequence of calls,
and the list of platform calls issued. -/
def safeReplyTrace (st : InteractionState) : List String → InteractionState × List Action
  | [] => (st, [])
  | c :: cs =>
    let p := safeReply st c
    let q := safeReplyTrace p.1 cs
    (q.1, p.2 :: q.2)

/-- Is an action an initial interaction reply? -/
def isInitialReply : Action → Bool
  | Action.replyCall _ => true
  | _ => false

/-- Is an action an interaction-reply edit? -/
def isEditReply : Action → Bool
  | Action.editReplyCall _ => true
  | _ => false

/-- Is an action a channel creation? -/
def isCreateChannel : Action → Bool
  | Action.createChannelCall _ => true
  | _ => false

/-- Is an action a channel deletion? -/
def isDeleteChannel : Action → Bool
  | Action.deleteChannelCall _ => true
  | _ => false

/-- Failure oracle for the platform calls `createTicket` makes after the
duplicate check: `createFails` — `guild.channels.create` rejects;
`introFails` — the intro `ch.send` rejects; `logFails` — the log-channel
`send` throws; `logFound` — whether `guild.channels.cache.get(config.logChannel)`
finds the configured log channel. -/
structure FailureModel where
  createFails : Bool
  introFails : Bool
  logFails : Bool
  logFound : Bool
deriving DecidableEq

/-- The generic failure message of the `createTicket` catch block
(`src/index.js:321`, `:323`). -/
def createFailContent : String := "خطأ أثناء إنشاء التذكرة."

/-- The catch block of `createTicket` (`src/index.js:320-324`): initial reply
when the interaction was never acknowledged, else an edit. -/
def createFailAction (st : InteractionState) : Action :=
  if !st.replied && !st.deferred then Action.replyCall createFailContent
  else Action.editReplyCall createFailContent

/-- The intro-message content (`src/index.js:303-306`): the mention of the requester, plus the configured roles-to-mention when that list is a
non-empty array. -/
def introContent (cfg : Config) (userId : String) : String :=
  "<@" ++ userId ++ ">" ++
    (if cfg.rolesToMention.length ≠ 0 then
      " " ++ String.intercalate " " (cfg.rolesToMention.map (fun r => "<@&" ++ r ++ ">"))
    else "")

/-- Result of a `createTicket` run: the guild's channel-name list after
the run, and the platform calls issued. -/
structure TicketResult where
  channels : List String
  trace : List Action
deriving DecidableEq

/-- Source function `createTicket` (`src/index.js:257-326`).  `channels` is the guild's
channel cache as a list of channel names; the duplicate check is
`guild.channels.cache.find(c => c.name.toLowerCase() === "ticket-" +
user.username.toLowerCase())` (`:263`).  On a hit, the deferred
interaction's reply is edited to point at the existing channel and
nothing else happens.  Otherwise the channel is created, the intro
message posted, a log notice sent when the log channel is configured and
found, and the interaction reply edited with the new channel; a throw at
any of those steps falls into the catch block (`createFailAction`). -/
def createTicket (cfg : Config) (guildId : String) (channels : List String)
    (username userId userTag : String) (st : InteractionState) (fm : FailureModel) :
    TicketResult :=
  match channels.find? (fun c => jsToLower c == "ticket-" ++ jsToLower username) with
  | some existing =>
    { channels := channels,
      trace := [Action.editReplyCall ("لديك تذكرة مفتوحة: " ++ existing)] }
  | none =>
    let opts := buildChannelOpts cfg guildId userId username
    if fm.createFails then
      { channels := channels,
        trace := [Action.createChannelCall opts, createFailAction st] }
    else
      let channels' := channels ++ [opts.name]
      if fm.introFails then
        { channels := channels',
          trace := [Action.createChannelCall opts,
                    Action.channelSendCall opts.name (introContent cfg userId),
                    createFailAction st] }
      else
        let pre := [Action.createChannelCall opts,
                    Action.channelSendCall opts.name (introContent cfg userId)]
        let successReply := Action.editReplyCall ("✔ تم إنشاء التذكرة: " ++ opts.name)
        if cfg.logChannel.isSome && fm.logFound then
          let logMsg := "🎫 تذكرة جديدة من " ++ userTag ++ " — " ++ opts.name
          if fm.logFails then
            { channels := channels', trace := pre ++ [Action.logSendCall logMsg, createFailAction st] }
          else
            { channels := channels', trace := pre ++ [Action.logSendCall logMsg, successReply] }
        else
          { channels := channels', trace := pre ++ [successReply] }

/-- One fetched message, as consumed by the transcript builder
(`src/index.js:225`): creation timestamp (epoch milliseconds), author
tag, text content (empty for embed/attachment-only messages). -/
structure Msg where
  createdTimestamp : Nat
  authorTag : String
  content : String
deriving DecidableEq

/-- One transcript line (`src/index.js:225`):
the line template from the source, a bracketed ISO timestamp, the
author tag, a colon, then the content with a fallback placeholder.
`iso` stands for `Date.prototype.toISOString`; an empty `content` is
falsy, so the placeholder is substituted. -/
def formatMsg (iso : Nat → String) (m : Msg) : String :=
  "[" ++ iso m.createdTimestamp ++ "] " ++ m.authorTag ++ ": " ++
    (if m.content = "" then "[embed/attachment]" else m.content)

/-- The transcript text (`src/index.js:225`): the fetched collection
(newest first) is mapped to lines, reversed, and joined with newlines. -/
def transcriptText (iso : Nat → String) (msgs : List Msg) : String :=
  String.intercalate "\n" ((msgs.map (formatMsg iso)).reverse)

/-- Failure oracle for the delayed close body: `fetchFails` —
`ch.messages.fetch` rejects; `writeFails` — `fs.writeFileSync` throws;
`logSendFails` — the transcript upload rejects (swallowed by its own
`.catch`); `logFound` — the cache lookup of `config.logChannel` succeeds. -/
structure CloseFailures where
  fetchFails : Bool
  writeFails : Bool
  logSendFails : Bool
  logFound : Bool
deriving DecidableEq

/-- The body of the `setTimeout` callback of the close-ticket handler
(`src/index.js:221-244`): fetch up to 100 messages, build and write the
transcript file, forward it to the log channel (if configured and found;
its rejection is swallowed by `.catch`), delete the channel (rejection
swallowed), unlink the file.  A throw from fetch or write lands in the
catch block, which still deletes the channel. -/
def closeTimeoutBody (cfg : Config) (chName chId closerTag : String)
    (iso : Nat → String) (msgs : List Msg) (f : CloseFailures) : List Action :=
  if f.fetchFails then
    [Action.fetchMessagesCall chName 100, Action.deleteChannelCall chName]
  else
    let filename := "transcript-" ++ chId ++ ".txt"
    if f.writeFails then
      [Action.fetchMessagesCall chName 100,
       Action.writeFileCall filename (transcriptText iso msgs),
       Action.deleteChannelCall chName]
    else
      [Action.fetchMessagesCall chName 100,
       Action.writeFileCall filename (transcriptText iso msgs)]
      ++ (if cfg.logChannel.isSome && f.logFound then
            [Action.logSendFileCall
              ("Transcript for " ++ chName ++ " (closed by " ++ closerTag ++ ")") filename]
          else [])
      ++ [Action.deleteChannelCall chName, Action.unlinkFileCall filename]

/-- The closing notice (`src/index.js:220`). -/
def closingNotice : String := "سيتم إغلاق التذكرة خلال 5 ثوانٍ..."

/-- Result of the close-ticket button handler: the platform calls issued
immediately, the `setTimeout` delay in milliseconds, and the calls the
delayed callback issues when it later runs. -/
structure CloseResult where
  immediate : List Action
  delayMs : Nat
  delayed : List Action
deriving DecidableEq

/-- The `close_ticket` button handler (`src/index.js:217-245`): defer,
edit the reply with the closing notice, then schedule the transcript-and-
delete body 5000 ms later. -/
def closeTicketHandler (cfg : Config) (chName chId closerTag : String)
    (iso : Nat → String) (msgs : List Msg) (f : CloseFailures) : CloseResult :=
  { immediate := [Action.deferReplyCall, Action.editReplyCall closingNotice],
    delayMs := 5000,
    delayed := closeTimeoutBody cfg chName chId closerTag iso msgs f }

/-- The denial message of the `setup_ticket` handler (`src/index.js:144`). -/
def setupTicketDenial : String := "رسالة: لا تملك صلاحية تنفيذ هذا الأمر."

/-- The `setup_ticket` slash-command handler (`src/index.js:141-170`):
deny unless the caller has ManageGuild or is a configured admin;
otherwise confirm and post the ticket panel into the invoking channel. -/
def setupTicketHandler (cfg : Config) (callerId : String) (callerHasManage : Bool) :
    List Action :=
  if !callerHasManage && !(isAdmin cfg callerId) then
    [Action.replyCall setupTicketDenial]
  else
    [Action.replyCall "تم إنشاء لوحة التذاكر ✓", Action.postPanelCall "ticket"]

/-- The denial message of the `verify_setup` handler (`src/index.js:174`). -/
def verifySetupDenial : String := "لا تملك صلاحية."

/-- The `verify_setup` slash-command handler (`src/index.js:172-183`). -/
def verifySetupHandler (cfg : Config) (callerId : String) (callerHasManage : Bool) :
    List Action :=
  if !callerHasManage && !(isAdmin cfg callerId) then
    [Action.replyCall verifySetupDenial]
  else
    [Action.replyCall "تم إنشاء لوحة التحقق ✓", Action.postPanelCall "verify"]

/-- The longest leading run of decimal digits of a character list. -/
def leadingDigits : List Char → List Char
  | [] => []
  | c :: cs => if c.isDigit then c :: leadingDigits cs else []

/-- Decimal value of a digit list (most significant first). -/
def natOfDigits (l : List Char) : Nat :=
  l.foldl (fun acc c => acc * 10 + (c.toNat - 48)) 0

/-- Base-10 model of JavaScript `parseInt`: skip leading spaces, read an
optional sign, then the longest digit run; `none` models `NaN`. -/
def parseIntJS (s : String) : Option Int :=
  let cs := s.data.dropWhile (fun c => c = ' ')
  match cs with
  | '-' :: rest =>
    let d := leadingDigits rest
    if d = [] then none else some (-(natOfDigits d : Int))
  | '+' :: rest =>
    let d := leadingDigits rest
    if d = [] then none else some (natOfDigits d : Int)
  | _ =>
    let d := leadingDigits cs
    if d = [] then none else some (natOfDigits d : Int)

/-- Model of `const amt = parseInt(args[0]) || 5` (`src/index.js:341`): a missing
argument gives `parseInt(undefined) = NaN`, and both `NaN` and `0` (and
`-0`) are falsy, so those default to 5. -/
def clearAmt (arg : Option String) : Int :=
  match arg with
  | none => 5
  | some s =>
    match parseIntJS s with
    | none => 5
    | some n => if n = 0 then 5 else n

/-- The prefix-command handler body (`src/index.js:329-360`), after the
source has stripped the configured command prefix and split the rest on
spaces into `cmd` and `args`.  `mentioned` is
`message.mentions.members.first()`.  Each block runs only when `allow`
holds; an unauthorized caller falls through every block with no calls. -/
def textCommandHandler (cfg : Config) (authorId : String) (authorHasManage : Bool)
    (chName cmd : String) (args : List String) (mentioned : Option String) :
    List Action :=
  let allow := isAdmin cfg authorId || authorHasManage
  (if cmd = "clear" ∧ allow then
    let amt := clearAmt args.head?
    [Action.bulkDeleteCall (min amt 100),
     Action.channelSendCall chName ("✔ تم مسح " ++ toString amt ++ " رسالة"),
     Action.scheduledMessageDelete 3000]
  else []) ++
  (if cmd = "ban" ∧ allow then
    match mentioned with
    | none => [Action.messageReplyCall "منشن الشخص"]
    | some m => [Action.banCall m, Action.messageReplyCall "✔ تم الحظر"]
  else []) ++
  (if cmd = "kick" ∧ allow then
    match mentioned with
    | none => [Action.messageReplyCall "منشن الشخص"]
    | some m => [Action.kickCall m, Action.messageReplyCall "✔ تم الطرد"]
  else [])

/-- A concrete stand-in for `Date.prototype.toISOString`, used only to
instantiate transcript theorems at concrete inputs. -/
def isoNat (n : Nat) : String := toString n

/-- A minimal concrete configuration (admin list configured but empty,
nothing else set), used to instantiate theorems at concrete inputs. -/
def cfgEmpty : Config :=
  { admins := some [], ticketCategory := none, logChannel := none,
    handlersRole := none, rolesToMention := [] }

/-- A concrete configuration whose admin list is `["42"]`. -/
def cfgAdmin42 : Config :=
  { admins := some ["42"], ticketCategory := none, logChannel := none,
    handlersRole := none, rolesToMention := [] }

/-- A fully populated concrete configuration: ticket category, log
channel, a handler-role list, and a role to mention. -/
def cfgFull : Config :=
  { admins := some ["42"], ticketCategory := some "cat1", logChannel := some "log1",
    handlersRole := some (Sum.inr ["r1", "r2"]), rolesToMention := ["m1"] }

/-- Like `cfgFull` but with a single handler-role id. -/
def cfgSingleRole : Config :=
  { admins := some ["42"], ticketCategory := some "cat1", logChannel := some "log1",
    handlersRole := some (Sum.inl "r7"), rolesToMention := [] }

/-! ## Helper lemmas -/

theorem isAdmin_iff (cfg : Config) (id : String) :
    isAdmin cfg id = true ↔ ∃ l, cfg.admins = some l ∧ id ∈ l := by
  unfold isAdmin
  cases h : cfg.admins with
  | none => simp
  | some l => simp

/-- In a state that has already been replied-to or deferred, every
further `safeReply` is an edit: no initial reply is ever issued. -/
theorem safeReplyTrace_acked (st : InteractionState) (h : (st.replied || st.deferred) = true)
    (cs : List String) : ((safeReplyTrace st cs).2.countP isInitialReply) = 0 := by
  induction cs with
  | nil => rfl
  | cons c cs ih =>
    simp only [safeReplyTrace, safeReply, h, if_pos]
    simp [List.countP_cons, isInitialReply, ih]

/-! ## Claim theorems -/

/-- C7: the admin gate is a pure predicate holding iff the caller id is
in the configured admin allow-list or the caller has the ManageGuild
permission; in particular `isPrivileged cfg "123" false` holds iff
`"123"` is listed, and `isPrivileged cfg "999" true` holds regardless of
list membership. -/
theorem admin_gate_spec (cfg : Config) :
    (isPrivileged cfg "123" false = true ↔ ∃ l, cfg.admins = some l ∧ "123" ∈ l) ∧
    isPrivileged cfg "999" true = true ∧
    ∀ (id : String) (m : Bool),
      isPrivileged cfg id m = true ↔ ((∃ l, cfg.admins = some l ∧ id ∈ l) ∨ m = true) := by
  have hgen : ∀ (id : String) (m : Bool),
      isPrivileged cfg id m = true ↔ ((∃ l, cfg.admins = some l ∧ id ∈ l) ∨ m = true) := by
    intro id m
    unfold isPrivileged
    rw [Bool.or_eq_true]
    rw [isAdmin_iff]
  refine ⟨?_, ?_, hgen⟩
  · rw [hgen "123" false]
    simp
  · unfold isPrivileged
    simp

/-- C5: calling `safeReply` twice on a fresh interaction issues exactly
one initial-reply call followed by one edit call; and over any sequence
of `safeReply` calls from any starting state, at most one initial-reply
call is ever issued. -/
theorem safeReply_reply_once (c₁ c₂ : String) :
    (safeReplyTrace ⟨false, false⟩ [c₁, c₂]).2 =
      [Action.replyCall c₁, Action.editReplyCall c₂] ∧
    ((safeReplyTrace ⟨false, false⟩ [c₁, c₂]).2.countP isInitialReply = 1 ∧
     (safeReplyTrace ⟨false, false⟩ [c₁, c₂]).2.countP isEditReply = 1) ∧
    ∀ (st : InteractionState) (cs : List String),
      ((safeReplyTrace st cs).2.countP isInitialReply) ≤ 1 := by
  refine ⟨rfl, ⟨rfl, rfl⟩, ?_⟩
  intro st cs
  by_cases h : (st.replied || st.deferred) = true
  · rw [safeReplyTrace_acked st h cs]
    omega
  · cases cs with
    | nil => simp [safeReplyTrace]
    | cons c cs =>
      have hr : st.replied = false ∧ st.deferred = false := by
        rcases st with ⟨r, d⟩
        cases r <;> cases d <;> simp_all
      simp only [safeReplyTrace, safeReply, hr.1, hr.2]
      simp only [Bool.or_self, Bool.false_or, if_neg Bool.false_ne_true]
      have hz : ((safeReplyTrace ⟨true, false⟩ cs).2.countP isInitialReply) = 0 :=
        safeReplyTrace_acked _ (by simp) cs
      simp only [List.countP_cons]
      rw [hz]
      simp [isInitialReply]

/-- C4: for messages fetched newest-first `[m₃, m₂, m₁]`, the transcript
lists them oldest-first `m₁, m₂, m₃`; in general the transcript is the
reversed fetch order; each line is `[timestamp] author: content` with a
placeholder substituted when a message has no text content. -/
theorem transcript_chronological (iso : Nat → String) (m₁ m₂ m₃ : Msg) :
    transcriptText iso [m₃, m₂, m₁] =
      formatMsg iso m₁ ++ "\n" ++ formatMsg iso m₂ ++ "\n" ++ formatMsg iso m₃ ∧
    (∀ msgs : List Msg,
      transcriptText iso msgs = String.intercalate "\n" (msgs.reverse.map (formatMsg iso))) ∧
    (∀ m : Msg, m.content = "" →
      formatMsg iso m =
        "[" ++ iso m.createdTimestamp ++ "] " ++ m.authorTag ++ ": " ++ "[embed/attachment]") ∧
    (∀ m : Msg, m.content ≠ "" →
      formatMsg iso m =
        "[" ++ iso m.createdTimestamp ++ "] " ++ m.authorTag ++ ": " ++ m.content) := by
  refine ⟨?_, ?_, ?_, ?_⟩
  · show String.intercalate "\n" _ = _
    simp only [List.map_cons, List.map_nil, List.reverse_cons, List.reverse_nil,
      List.nil_append, List.cons_append]
    simp [String.intercalate, String.intercalate.go]
  · intro msgs
    unfold transcriptText
    rw [List.map_reverse]
  · intro m h
    unfold formatMsg
    rw [if_pos h]
  · intro m h
    unfold formatMsg
    rw [if_neg h]

/-- C3: the close-ticket handler sends the closing notice immediately
(and issues no delete there), schedules the close body exactly 5000 ms
later, and that body invokes the channel delete exactly once, whatever
combination of the transcript fetch, the file write, and the log-sink
forwarding succeeds or throws. -/
theorem close_ticket_delete_once (cfg : Config) (chName chId closerTag : String)
    (iso : Nat → String) (msgs : List Msg) (f : CloseFailures) :
    (closeTicketHandler cfg chName chId closerTag iso msgs f).immediate =
      [Action.deferReplyCall, Action.editReplyCall closingNotice] ∧
    (closeTicketHandler cfg chName chId closerTag iso msgs f).delayMs = 5000 ∧
    (closeTicketHandler cfg chName chId closerTag iso msgs f).immediate.countP
      isDeleteChannel = 0 ∧
    (closeTicketHandler cfg chName chId closerTag iso msgs f).delayed.countP
      isDeleteChannel = 1 := by
  refine ⟨rfl, rfl, rfl, ?_⟩
  show (closeTimeoutBody cfg chName chId closerTag iso msgs f).countP isDeleteChannel = 1
  rcases f with ⟨ff, wf, lf, lfo⟩
  unfold closeTimeoutBody
  cases ff <;> cases wf <;> cases lf <;> cases lfo <;>
    cases h : cfg.logChannel.isSome <;>
      simp [List.countP_append, List.countP_cons, isDeleteChannel, h]

/-- C10: an authorized `clear` bulk-deletes at most 100 messages
whatever amount was requested, defaults the amount to 5 when the
argument is missing or unparseable, and reports the unclamped requested
amount in the confirmation message. -/
theorem clear_command_caps_bulk_delete (cfg : Config) (authorId : String)
    (m : Bool) (chName : String) (args : List String) (mentioned : Option String)
    (h : (isAdmin cfg authorId || m) = true) :
    textCommandHandler cfg authorId m chName "clear" args mentioned =
      [Action.bulkDeleteCall (min (clearAmt args.head?) 100),
       Action.channelSendCall chName ("✔ تم مسح " ++ toString (clearAmt args.head?) ++ " رسالة"),
       Action.scheduledMessageDelete 3000] ∧
    min (clearAmt args.head?) 100 ≤ 100 ∧
    (args.head? = none → clearAmt args.head? = 5) ∧
    (∀ s : String, parseIntJS s = none → clearAmt (some s) = 5) := by
  refine ⟨?_, min_le_right _ _, ?_, ?_⟩
  · unfold textCommandHandler
    simp [h]
  · intro h0
    rw [h0]
    rfl
  · intro s hs
    simp [clearAmt, hs]

/-- Witness for C10 at a concrete input: admin caller, requested amount
250 — the bulk delete is clamped to 100 while the confirmation reports
250. -/
theorem clear_command_caps_bulk_delete_witness :
    textCommandHandler cfgAdmin42 "42" false "general" "clear" ["250"] none =
      [Action.bulkDeleteCall 100,
       Action.channelSendCall "general" "✔ تم مسح 250 رسالة",
       Action.scheduledMessageDelete 3000] := by
  have t := (clear_command_caps_bulk_delete cfgAdmin42 "42" false "general" ["250"] none
    (by decide)).1
  rw [t]
  decide

/-- C9 counterexample: an unauthorized caller invoking the prefix
moderation command `clear` has the operation skipped but receives NO
denial message — the handler issues no platform call at all, refuting
the claim that every unauthorized privileged operation reports a short
denial to the caller. -/
theorem unauthorized_clear_silent_cex :
    isPrivileged cfgEmpty "999" false = false ∧
    textCommandHandler cfgEmpty "999" false "general" "clear" ["3"] none = [] := by
  decide

/-- C9 (amended): an unauthorized caller can perform none of the
privileged operations; the ticket-panel and verify-panel setups reply
with a short denial message, while the prefix-triggered moderation
commands (`clear`/`ban`/`kick`, and any other prefix command) are
silently ignored — no action and no message. -/
theorem unauthorized_operations_blocked (cfg : Config) (callerId : String) (m : Bool)
    (h : isPrivileged cfg callerId m = false) :
    setupTicketHandler cfg callerId m = [Action.replyCall setupTicketDenial] ∧
    verifySetupHandler cfg callerId m = [Action.replyCall verifySetupDenial] ∧
    ∀ (chName cmd : String) (args : List String) (mentioned : Option String),
      textCommandHandler cfg callerId m chName cmd args mentioned = [] := by
  have h' : isAdmin cfg callerId = false ∧ m = false := by
    unfold isPrivileged at h
    cases ha : isAdmin cfg callerId <;> cases hm : m <;> simp_all
  refine ⟨?_, ?_, ?_⟩
  · unfold setupTicketHandler
    rw [h'.1, h'.2]
    rfl
  · unfold verifySetupHandler
    rw [h'.1, h'.2]
    rfl
  · intro chName cmd args mentioned
    unfold textCommandHandler
    simp [h'.1, h'.2]

/-- Witness for the amended C9 at a concrete unauthorized caller. -/
theorem unauthorized_operations_blocked_witness :
    setupTicketHandler cfgEmpty "999" false = [Action.replyCall setupTicketDenial] ∧
    verifySetupHandler cfgEmpty "999" false = [Action.replyCall verifySetupDenial] ∧
    textCommandHandler cfgEmpty "999" false "general" "ban" [] none = [] := by
  have t := unauthorized_operations_blocked cfgEmpty "999" false (by decide)
  exact ⟨t.1, t.2.1, t.2.2 "general" "ban" [] none⟩

/-- C1: when a channel named `ticket-<lowercased username>` already
exists in the guild, `createTicket` creates no channel, leaves the
channel set unchanged, and edits the interaction reply to reference an
existing matching channel — so the at-most-one-open-ticket invariant is
preserved. -/
theorem duplicate_ticket_not_recreated (cfg : Config) (guildId : String)
    (channels : List String) (username userId userTag : String)
    (st : InteractionState) (fm : FailureModel)
    (h : ("ticket-" ++ jsToLower username) ∈ channels) :
    (createTicket cfg guildId channels username userId userTag st fm).channels = channels ∧
    (createTicket cfg guildId channels username userId userTag st fm).trace.countP
      isCreateChannel = 0 ∧
    ∃ e, e ∈ channels ∧ jsToLower e = "ticket-" ++ jsToLower username ∧
      (createTicket cfg guildId channels username userId userTag st fm).trace =
        [Action.editReplyCall ("لديك تذكرة مفتوحة: " ++ e)] := by
  have hp : (fun c => jsToLower c == "ticket-" ++ jsToLower username)
      ("ticket-" ++ jsToLower username) = true := by
    show (jsToLower ("ticket-" ++ jsToLower username) == _) = true
    rw [jsToLower_ticket, jsToLower_idem]
    exact beq_self_eq_true _
  obtain ⟨e, he⟩ : ∃ e, channels.find?
      (fun c => jsToLower c == "ticket-" ++ jsToLower username) = some e :=
    Option.isSome_iff_exists.mp (List.find?_isSome.mpr ⟨_, h, hp⟩)
  have hpe : jsToLower e = "ticket-" ++ jsToLower username := by
    simpa using List.find?_some he
  have hme : e ∈ channels := List.mem_of_find?_eq_some he
  unfold createTicket
  rw [he]
  exact ⟨rfl, rfl, e, hme, hpe, rfl⟩

/-- Witness for C1: user `Bob` already has `ticket-bob`; invoking the
open-ticket operation changes nothing and points at the existing
channel. -/
theorem duplicate_ticket_not_recreated_witness :
    ("ticket-" ++ jsToLower "Bob") ∈ ["ticket-bob"] ∧
    ((createTicket cfgEmpty "g" ["ticket-bob"] "Bob" "u1" "Bob#1" ⟨false, true⟩
        ⟨false, false, false, false⟩).channels = ["ticket-bob"] ∧
     (createTicket cfgEmpty "g" ["ticket-bob"] "Bob" "u1" "Bob#1" ⟨false, true⟩
        ⟨false, false, false, false⟩).trace.countP isCreateChannel = 0 ∧
     ∃ e, e ∈ ["ticket-bob"] ∧ jsToLower e = "ticket-" ++ jsToLower "Bob" ∧
       (createTicket cfgEmpty "g" ["ticket-bob"] "Bob" "u1" "Bob#1" ⟨false, true⟩
          ⟨false, false, false, false⟩).trace =
         [Action.editReplyCall ("لديك تذكرة مفتوحة: " ++ e)]) :=
  ⟨by decide,
   duplicate_ticket_not_recreated cfgEmpty "g" ["ticket-bob"] "Bob" "u1" "Bob#1"
     ⟨false, true⟩ ⟨false, false, false, false⟩ (by decide)⟩

/-- C2: when no channel matches the derived name, a failure-free
`createTicket` adds exactly one channel, a text channel named
`ticket-<lowercased username>`, and finishes by editing the interaction
reply with a success message referencing that channel. -/
theorem open_ticket_creates_channel (cfg : Config) (guildId : String)
    (channels : List String) (username userId userTag : String)
    (st : InteractionState) (logFound : Bool)
    (h : ∀ c ∈ channels, jsToLower c ≠ "ticket-" ++ jsToLower username) :
    (createTicket cfg guildId channels username userId userTag st
        ⟨false, false, false, logFound⟩).channels =
      channels ++ ["ticket-" ++ jsToLower username] ∧
    (createTicket cfg guildId channels username userId userTag st
        ⟨false, false, false, logFound⟩).trace.countP isCreateChannel = 1 ∧
    Action.createChannelCall (buildChannelOpts cfg guildId userId username) ∈
      (createTicket cfg guildId channels username userId userTag st
        ⟨false, false, false, logFound⟩).trace ∧
    (buildChannelOpts cfg guildId userId username).name =
      "ticket-" ++ jsToLower username ∧
    (buildChannelOpts cfg guildId userId username).type = JsChannelType.guildText ∧
    (createTicket cfg guildId channels username userId userTag st
        ⟨false, false, false, logFound⟩).trace.getLast? =
      some (Action.editReplyCall
        ("✔ تم إنشاء التذكرة: " ++ ("ticket-" ++ jsToLower username))) := by
  have hfind : channels.find?
      (fun c => jsToLower c == "ticket-" ++ jsToLower username) = none := by
    refine List.find?_eq_none.mpr ?_
    intro x hx
    simpa using h x hx
  have hname : (buildChannelOpts cfg guildId userId username).name =
      "ticket-" ++ jsToLower username := jsToLower_ticket username
  unfold createTicket
  rw [hfind]
  cases hl : (cfg.logChannel.isSome && logFound) <;>
    simp [hl, hname, List.countP_cons, isCreateChannel, List.getLast?, buildChannelOpts,
      jsToLower_ticket]

/-- Witness for C2: user `Bob` with no existing ticket in a fully
configured guild. -/
theorem open_ticket_creates_channel_witness :
    (∀ c ∈ ([] : List String), jsToLower c ≠ "ticket-" ++ jsToLower "Bob") ∧
    ((createTicket cfgFull "g" [] "Bob" "u1" "Bob#1" ⟨false, true⟩
        ⟨false, false, false, true⟩).channels = [] ++ ["ticket-" ++ jsToLower "Bob"] ∧
     (createTicket cfgFull "g" [] "Bob" "u1" "Bob#1" ⟨false, true⟩
        ⟨false, false, false, true⟩).trace.countP isCreateChannel = 1 ∧
     Action.createChannelCall (buildChannelOpts cfgFull "g" "u1" "Bob") ∈
       (createTicket cfgFull "g" [] "Bob" "u1" "Bob#1" ⟨false, true⟩
         ⟨false, false, false, true⟩).trace ∧
     (buildChannelOpts cfgFull "g" "u1" "Bob").name = "ticket-" ++ jsToLower "Bob" ∧
     (buildChannelOpts cfgFull "g" "u1" "Bob").type = JsChannelType.guildText ∧
     (createTicket cfgFull "g" [] "Bob" "u1" "Bob#1" ⟨false, true⟩
        ⟨false, false, false, true⟩).trace.getLast? =
       some (Action.editReplyCall
         ("✔ تم إنشاء التذكرة: " ++ ("ticket-" ++ jsToLower "Bob")))) :=
  ⟨by decide,
   open_ticket_creates_channel cfgFull "g" [] "Bob" "u1" "Bob#1" ⟨false, true⟩ true
     (by decide)⟩

/-- Witness for C4: a message with no text content gets the
placeholder line. -/
theorem transcript_chronological_witness :
    Msg.content ⟨5, "a#1", ""⟩ = "" ∧
    formatMsg isoNat ⟨5, "a#1", ""⟩ =
      "[" ++ isoNat 5 ++ "] " ++ "a#1" ++ ": " ++ "[embed/attachment]" :=
  ⟨rfl,
   (transcript_chronological isoNat ⟨5, "a#1", ""⟩ ⟨5, "a#1", ""⟩ ⟨5, "a#1", ""⟩).2.2.1
     ⟨5, "a#1", ""⟩ rfl⟩

/-- C6: the channel options built for a new ticket deny ViewChannel to
the guild-wide role, grant ViewChannel and SendMessages to the
requesting user, grant ViewChannel and SendMessages to each configured
handler role — whether `handlersRole` is a single id or a list — and
parent the channel to the configured ticket category. -/
theorem ticket_channel_scoping (cfg : Config) (guildId userId username : String) :
    (buildChannelOpts cfg guildId userId username).parent = cfg.ticketCategory ∧
    (∃ ov ∈ (buildChannelOpts cfg guildId userId username).permissionOverwrites,
      ov.id = Sum.inl guildId ∧ Perm.viewChannel ∈ ov.deny) ∧
    (∃ ov ∈ (buildChannelOpts cfg guildId userId username).permissionOverwrites,
      ov.id = Sum.inl userId ∧ Perm.viewChannel ∈ ov.allow ∧ Perm.sendMessages ∈ ov.allow) ∧
    (∀ rid : String, cfg.handlersRole = some (Sum.inl rid) → rid ≠ "" →
      ∃ ov ∈ (buildChannelOpts cfg guildId userId username).permissionOverwrites,
        ov.id = Sum.inl rid ∧ Perm.viewChannel ∈ ov.allow ∧ Perm.sendMessages ∈ ov.allow) ∧
    (∀ ids : List String, cfg.handlersRole = some (Sum.inr ids) → ∀ rid ∈ ids,
      ∃ ov ∈ (buildChannelOpts cfg guildId userId username).permissionOverwrites,
        ov.id = Sum.inl rid ∧ Perm.viewChannel ∈ ov.allow ∧ Perm.sendMessages ∈ ov.allow) := by
  refine ⟨rfl, ?_, ?_, ?_, ?_⟩
  · exact ⟨{ id := Sum.inl guildId, allow := [], deny := [Perm.viewChannel] },
      by simp [buildChannelOpts], rfl, by simp⟩
  · exact ⟨allowViewSend (Sum.inl userId), by simp [buildChannelOpts], rfl,
      by simp [allowViewSend], by simp [allowViewSend]⟩
  · intro rid hhr hne
    refine ⟨allowViewSend (Sum.inl rid), ?_, rfl, by simp [allowViewSend],
      by simp [allowViewSend]⟩
    have h1 : handlersOverwrites (some (Sum.inl rid)) = [allowViewSend (Sum.inl rid)] := by
      show (if rid ≠ "" then [allowViewSend (Sum.inl rid)] else []) =
        [allowViewSend (Sum.inl rid)]
      rw [if_pos hne]
    simp [buildChannelOpts, hhr, h1]
  · intro ids hhr rid hrid
    refine ⟨allowViewSend (Sum.inl rid), ?_, rfl, by simp [allowViewSend],
      by simp [allowViewSend]⟩
    have hlen : ids.length ≠ 0 := by
      have := List.ne_nil_of_mem hrid
      simpa [List.length_eq_zero] using this
    have h1 : handlersOverwrites (some (Sum.inr ids)) =
        ids.map (fun r => allowViewSend (Sum.inl r)) := by
      show (if ids.length ≠ 0 then List.map (fun r => allowViewSend (Sum.inl r)) ids
        else [allowViewSend (Sum.inr ids)]) = List.map (fun r => allowViewSend (Sum.inl r)) ids
      rw [if_pos hlen]
    simp only [buildChannelOpts, hhr, h1]
    refine List.mem_append_right _ ?_
    exact List.mem_map_of_mem _ hrid

/-- Witness for C6: the handler-role grant at a concrete list
configuration (`cfgFull`, roles `r1`,`r2`) and at a concrete single-id
configuration (`cfgSingleRole`, role `r7`). -/
theorem ticket_channel_scoping_witness :
    (buildChannelOpts cfgFull "g" "u1" "Bob").parent = cfgFull.ticketCategory ∧
    (∃ ov ∈ (buildChannelOpts cfgFull "g" "u1" "Bob").permissionOverwrites,
      ov.id = Sum.inl "r1" ∧ Perm.viewChannel ∈ ov.allow ∧ Perm.sendMessages ∈ ov.allow) ∧
    (∃ ov ∈ (buildChannelOpts cfgSingleRole "g" "u1" "Bob").permissionOverwrites,
      ov.id = Sum.inl "r7" ∧ Perm.viewChannel ∈ ov.allow ∧ Perm.sendMessages ∈ ov.allow) :=
  ⟨(ticket_channel_scoping cfgFull "g" "u1" "Bob").1,
   (ticket_channel_scoping cfgFull "g" "u1" "Bob").2.2.2.2 ["r1", "r2"] rfl "r1"
     (by decide),
   (ticket_channel_scoping cfgSingleRole "g" "u1" "Bob").2.2.2.1 "r7" rfl (by decide)⟩

/-- The generic-failure action is never a channel delete. -/
theorem isDeleteChannel_createFailAction (st : InteractionState) :
    isDeleteChannel (createFailAction st) = false := by
  unfold createFailAction
  split <;> rfl

/-- C8: when any step after the duplicate check throws (channel
creation, intro post, or log emission), `createTicket` ends by giving
the interaction a generic failure message — an initial reply if it was
never acknowledged, an edit otherwise — deletes nothing, and a channel
created before the failing step stays in the guild's channel set (no
rollback). -/
theorem create_ticket_failure_contained (cfg : Config) (guildId : String)
    (channels : List String) (username userId userTag : String)
    (st : InteractionState) (fm : FailureModel)
    (hnone : ∀ c ∈ channels, jsToLower c ≠ "ticket-" ++ jsToLower username)
    (hfail : fm.createFails = true ∨ fm.introFails = true ∨
      (fm.logFails = true ∧ cfg.logChannel.isSome = true ∧ fm.logFound = true)) :
    (createTicket cfg guildId channels username userId userTag st fm).trace.getLast? =
      some (createFailAction st) ∧
    (st.replied = false → st.deferred = false →
      createFailAction st = Action.replyCall createFailContent) ∧
    (st.replied = true ∨ st.deferred = true →
      createFailAction st = Action.editReplyCall createFailContent) ∧
    (createTicket cfg guildId channels username userId userTag st fm).trace.countP
      isDeleteChannel = 0 ∧
    (fm.createFails = false →
      (buildChannelOpts cfg guildId userId username).name ∈
        (createTicket cfg guildId channels username userId userTag st fm).channels) := by
  have hfind : channels.find?
      (fun c => jsToLower c == "ticket-" ++ jsToLower username) = none := by
    refine List.find?_eq_none.mpr ?_
    intro x hx
    simpa using hnone x hx
  have hfa1 : st.replied = false → st.deferred = false →
      createFailAction st = Action.replyCall createFailContent := by
    intro h1 h2
    unfold createFailAction
    rw [h1, h2]
    rfl
  have hfa2 : st.replied = true ∨ st.deferred = true →
      createFailAction st = Action.editReplyCall createFailContent := by
    intro h1
    unfold createFailAction
    rcases h1 with h1 | h1 <;> rw [h1] <;> cases hb : st.replied <;>
      cases hc : st.deferred <;> simp_all
  unfold createTicket
  rw [hfind]
  rcases fm with ⟨cf, inf, lf, lfo⟩
  cases cf with
  | true =>
    exact ⟨rfl, hfa1, hfa2,
      by rcases st with ⟨r, d⟩; cases r <;> cases d <;> rfl,
      by intro hcontra; simp at hcontra⟩
  | false =>
    cases inf with
    | true =>
      refine ⟨rfl, hfa1, hfa2,
        by rcases st with ⟨r, d⟩; cases r <;> cases d <;> rfl, ?_⟩
      intro _
      simp
    | false =>
      have hlog : lf = true ∧ cfg.logChannel.isSome = true ∧ lfo = true := by
        simpa using hfail
      simp only [hlog.1, hlog.2.1, hlog.2.2, Bool.and_self, if_true]
      refine ⟨?_, hfa1, hfa2, ?_, ?_⟩
      · simp [List.getLast?]
      · rcases st with ⟨r, d⟩
        cases r <;> cases d <;> rfl
      · intro _
        simp

/-- Witness for C8: the intro post fails after the channel was
created — the deferred interaction gets the generic failure edit and
the channel is not rolled back. -/
theorem create_ticket_failure_contained_witness :
    (∀ c ∈ ([] : List String), jsToLower c ≠ "ticket-" ++ jsToLower "Bob") ∧
    ((createTicket cfgFull "g" [] "Bob" "u1" "Bob#1" ⟨false, true⟩
        ⟨false, true, false, false⟩).trace.getLast? =
      some (createFailAction ⟨false, true⟩) ∧
     (InteractionState.replied ⟨false, true⟩ = false →
        InteractionState.deferred ⟨false, true⟩ = false →
        createFailAction ⟨false, true⟩ = Action.replyCall createFailContent) ∧
     (InteractionState.replied ⟨false, true⟩ = true ∨
        InteractionState.deferred ⟨false, true⟩ = true →
        createFailAction ⟨false, true⟩ = Action.editReplyCall createFailContent) ∧
     (createTicket cfgFull "g" [] "Bob" "u1" "Bob#1" ⟨false, true⟩
        ⟨false, true, false, false⟩).trace.countP isDeleteChannel = 0 ∧
     (FailureModel.createFails ⟨false, true, false, false⟩ = false →
        (buildChannelOpts cfgFull "g" "u1" "Bob").name ∈
          (createTicket cfgFull "g" [] "Bob" "u1" "Bob#1" ⟨false, true⟩
            ⟨false, true, false, false⟩).channels)) :=
  ⟨by decide,
   create_ticket_failure_contained cfgFull "g" [] "Bob" "u1" "Bob#1" ⟨false, true⟩
     ⟨false, true, false, false⟩ (by decide) (Or.inr (Or.inl rfl))⟩

end TicketBot
